import Mathlib

/-!
Verification of the OpenWebUI bulk model updater scripts.

The repository holds three near-identical Python scripts:
  src/update-models.py                       (sequential, endpoint loop)
  src/update-remotely/batch-model-updater.py (parallel, Cloudflare headers)
  src/serverside-script/batch-model-updater.py (parallel, local target)

The two batch variants share verbatim the functions `update_single_model`
and the classification/summary part of `update_models`; they are embedded
once below.  JSON values are modelled by an inductive `Json`; a parsed
Python dict is an association list with unique keys; Python truthiness and
Python `==` on parsed-JSON values are modelled explicitly.
-/

namespace BulkUpdater

/-- A parsed JSON value, as produced by `response.json()`.  JSON numbers are
modelled as integers; nothing in the scripts does arithmetic on them. -/
inductive Json where
  | null
  | bool (b : Bool)
  | num (n : Int)
  | str (s : String)
  | arr (elems : List Json)
  | obj (entries : List (String × Json))
  deriving Repr

/-- A Python dict holding parsed JSON, i.e. the shape of a model record. -/
abbrev Dict := List (String × Json)

mutual

/-- Python `==` on parsed-JSON values.  `bool` is a subtype of `int` in
Python, so `True == 1`; dict comparison here is entry-list equality, which
agrees with Python on the unique-key dicts produced by JSON parsing up to
key order (no claim compares dict-valued fields). -/
def pyEq : Json → Json → Bool
  | .null, .null => true
  | .bool a, .bool b => a == b
  | .bool a, .num m => (if a then (1 : Int) else 0) == m
  | .num n, .bool b => n == (if b then (1 : Int) else 0)
  | .num n, .num m => n == m
  | .str a, .str b => a == b
  | .arr xs, .arr ys => pyEqList xs ys
  | .obj xs, .obj ys => pyEqEntries xs ys
  | _, _ => false

def pyEqList : List Json → List Json → Bool
  | [], [] => true
  | x :: xs, y :: ys => pyEq x y && pyEqList xs ys
  | _, _ => false

def pyEqEntries : List (String × Json) → List (String × Json) → Bool
  | [], [] => true
  | (k, v) :: xs, (l, w) :: ys => k == l && pyEq v w && pyEqEntries xs ys
  | _, _ => false

end

/-- Python truthiness of a parsed JSON value (`if x:`). -/
def Json.truthy : Json → Bool
  | .null => false
  | .bool b => b
  | .num n => n != 0
  | .str s => s != ""
  | .arr xs => !xs.isEmpty
  | .obj kvs => !kvs.isEmpty

/-- `x is None` for a parsed JSON value. -/
def Json.isNull : Json → Bool
  | .null => true
  | _ => false

/-- First binding of key `k` in a dict (Python dicts have unique keys, so
the first binding is the binding). -/
def findEntry (d : Dict) (k : String) : Option Json :=
  match d.find? (fun p => p.1 == k) with
  | some p => some p.2
  | none => none

/-- Python `d.get(k, dflt)`. -/
def getD (d : Dict) (k : String) (dflt : Json) : Json :=
  match findEntry d k with
  | some v => v
  | none => dflt

/-- Python `k in d`. -/
def hasKey (d : Dict) (k : String) : Bool :=
  (findEntry d k).isSome

/-- Python `d[k] = v`: replace the binding of `k` when present, otherwise
append a new binding (Python dicts keep insertion order). -/
def setKey (d : Dict) (k : String) (v : Json) : Dict :=
  if hasKey d k then d.map (fun p => if p.1 == k then (k, v) else p)
  else d ++ [(k, v)]

mutual

/-- Python `repr` of a parsed JSON value (string escaping inside reprs is
not modelled; no claim depends on it). -/
def pyRepr : Json → String
  | .null => "None"
  | .bool true => "True"
  | .bool false => "False"
  | .num n => toString n
  | .str s => "\x27" ++ s ++ "\x27"
  | .arr xs => "[" ++ pyReprList xs ++ "]"
  | .obj kvs => "\x7b" ++ pyReprEntries kvs ++ "\x7d"

def pyReprList : List Json → String
  | [] => ""
  | [x] => pyRepr x
  | x :: xs => pyRepr x ++ ", " ++ pyReprList xs

def pyReprEntries : List (String × Json) → String
  | [] => ""
  | [(k, v)] => "\x27" ++ k ++ "\x27: " ++ pyRepr v
  | (k, v) :: kvs => "\x27" ++ k ++ "\x27: " ++ pyRepr v ++ ", " ++ pyReprEntries kvs

end

/-- Python `str` of a parsed JSON value, as interpolated by an f-string. -/
def pyStr : Json → String
  | .str s => s
  | j => pyRepr j

/-- What `make_api_call` hands back: the parsed JSON body, the raw text of
a non-JSON body, or `None` after a transport exception. -/
inductive ApiResponse where
  | json (j : Json)
  | text (s : String)
  | noResp
  deriving Repr

/-- Python truthiness of a `make_api_call` result. -/
def ApiResponse.truthy : ApiResponse → Bool
  | .json j => j.truthy
  | .text s => s != ""
  | .noResp => false

/-- `isinstance(r, list)` on a `make_api_call` result. -/
def ApiResponse.isList : ApiResponse → Bool
  | .json (.arr _) => true
  | _ => false

/-- `isinstance(r, dict)` on a `make_api_call` result. -/
def ApiResponse.isDict : ApiResponse → Bool
  | .json (.obj _) => true
  | _ => false

/-- The entries of a dict-shaped response (and `[]` on any other shape,
used only under an `isDict` guard). -/
def ApiResponse.objEntries : ApiResponse → Dict
  | .json (.obj kvs) => kvs
  | _ => []

/-- The parsed JSON of a response, when the body parsed. -/
def ApiResponse.jsonVal : ApiResponse → Option Json
  | .json j => some j
  | _ => none

/-- The default `meta` object inserted by `update_single_model` when the
record has no `meta` key. -/
def defaultMeta (modelName : Json) (targetModel : String) : Json :=
  .obj [("profile_image_url", .str "/static/favicon.png"),
        ("description", .str (pyStr modelName ++ " using " ++ targetModel)),
        ("capabilities", .obj [])]

/-- The update payload built by `update_single_model` (identical code in
`update-models.py` lines 139-156 and both batch variants): a copy of the
record with `base_model_id` overwritten and `name`, `meta`, `params`
defaulted when absent. -/
def buildUpdatePayload (model : Dict) (targetModel : String) : Dict :=
  let modelName := getD model "name" (.str "unknown")
  let p1 := setKey model "base_model_id" (.str targetModel)
  let p2 := if hasKey p1 "name" then p1 else setKey p1 "name" modelName
  let p3 := if hasKey p2 "meta" then p2
            else setKey p2 "meta" (defaultMeta modelName targetModel)
  let p4 := if hasKey p3 "params" then p3 else setKey p3 "params" (.obj [])
  p4

/-- One POST issued by `update_single_model`: endpoint suffix, JSON body,
query parameters. -/
structure UpdateCall where
  endpoint : String
  payload : Dict
  params : Dict
  deriving Repr

/-- The observable behaviour of one `update_single_model` invocation: the
returned truth value, the POSTs issued in order, and how far the progress
bar advanced. -/
structure SingleResult where
  success : Bool
  calls : List UpdateCall
  progress : Nat
  deriving Repr

/-- The response to an `update_single_model` POST is judged by
`update_response and isinstance(update_response, dict) and
update_response.get('id') == model_id`. -/
def updateOk (resp : ApiResponse) (modelId : Json) : Bool :=
  resp.truthy && resp.isDict && pyEq (getD resp.objEntries "id" .null) modelId

/-- `model_id == 'unknown' or model_id is None`. -/
def invalidId (modelId : Json) : Bool :=
  pyEq modelId (.str "unknown") || modelId.isNull

/-- `update_single_model` of both batch variants, with the network as an
explicit environment mapping each POST to its response. -/
def update_single_model (env : UpdateCall → ApiResponse) (targetModel : String)
    (model : Dict) : SingleResult :=
  let modelId := getD model "id" (.str "unknown")
  let currentBase := getD model "base_model_id" (.str "unknown")
  if invalidId modelId then
    ⟨false, [], 1⟩
  else if pyEq currentBase (.str targetModel) then
    ⟨true, [], 1⟩
  else
    let payload := buildUpdatePayload model targetModel
    let call1 : UpdateCall := ⟨"/models/model/update", payload, [("id", modelId)]⟩
    let r1 := env call1
    if updateOk r1 modelId then
      ⟨true, [call1], 1⟩
    else
      let call2 : UpdateCall := ⟨"/models/update", payload, [("id", modelId)]⟩
      let r2 := env call2
      ⟨updateOk r2 modelId, [call1, call2], 1⟩

/-- The three-way outcome a record lands in during the summary phase. -/
inductive Outcome where
  | updated
  | skipped
  | failed
  deriving Repr, BEq, DecidableEq

/-- How the result-collection loop of `update_models` classifies one
record (both batch variants): `success` means updated; otherwise the
record is skipped when its `base_model_id` already equals the target and
failed when not. -/
def classifyModel (env : UpdateCall → ApiResponse) (targetModel : String)
    (model : Dict) : Outcome :=
  if (update_single_model env targetModel model).success then .updated
  else if pyEq (getD model "base_model_id" (.str "unknown")) (.str targetModel) then
    .skipped
  else .failed

/-- The three counters reported in the final summary block. -/
structure Summary where
  successful : Nat
  skipped : Nat
  failed : Nat
  deriving Repr, DecidableEq

/-- Whether an outcome increments the `successful_updates` counter. -/
def Outcome.isUpdated : Outcome → Bool
  | .updated => true
  | _ => false

/-- Whether an outcome increments the `skipped_updates` counter. -/
def Outcome.isSkipped : Outcome → Bool
  | .skipped => true
  | _ => false

/-- Whether an outcome increments the `failed_updates` counter. -/
def Outcome.isFailed : Outcome → Bool
  | .failed => true
  | _ => false

/-- The summary of a batch: the outcome counts over all fetched records
(the parallel collection order permutes the records but counts are
order-independent). -/
def runSummary (env : UpdateCall → ApiResponse) (targetModel : String)
    (models : List Dict) : Summary :=
  let outs := models.map (classifyModel env targetModel)
  ⟨outs.countP Outcome.isUpdated,
   outs.countP Outcome.isSkipped,
   outs.countP Outcome.isFailed⟩

/-- The break condition of the fallback-endpoint loop (identical in all
three scripts): the response is truthy and is a list, or is a dict
containing a `models` or `data` key.  The value under the key is not
inspected. -/
def listingOk (r : ApiResponse) : Bool :=
  r.truthy &&
    (r.isList ||
      (r.isDict && (hasKey r.objEntries "models" || hasKey r.objEntries "data")))

/-- The fallback loop of the batch variants: `models_response` is
reassigned to each alternative response in turn and the loop breaks at the
first one satisfying `listingOk`; without a break, the last response
tried (or the initial one, when there are no alternatives) remains. -/
def loopFetch : ApiResponse → List ApiResponse → ApiResponse
  | cur, [] => cur
  | _, r :: rs => if listingOk r then r else loopFetch r rs

/-- Discovery of the batch variants: the first candidate `/models` is
accepted only when it is a truthy list; otherwise the three alternatives
are run through `loopFetch`. -/
def fetchModelsResponse (r0 : ApiResponse) (alts : List ApiResponse) : ApiResponse :=
  if r0.truthy && r0.isList then r0 else loopFetch r0 alts

/-- Extraction of the batch variants: a dict yields
`r.get('models', r.get('data', []))`; a list yields itself; anything else
yields `[]`. -/
def extractModels : ApiResponse → Json
  | .json (.obj kvs) => getD kvs "models" (getD kvs "data" (.arr []))
  | .json (.arr xs) => .arr xs
  | _ => .arr []

/-- Outcome of the fetch phase of the batch variants.  The only fatal
message there is `"No models found in the API response"`, raised exactly
when `len(models) == 0`; a non-list extracted value of positive length
makes the later per-record `model.get` calls raise uncaught. -/
inductive FetchResult where
  | noModelsFound
  | ok (models : List Json)
  | typeError
  deriving Repr

/-- `len` of a parsed JSON value; `none` models the `TypeError` raised on
values without a length. -/
def pyLenJson : Json → Option Nat
  | .arr xs => some xs.length
  | .str s => some s.length
  | .obj kvs => some kvs.length
  | _ => none

/-- The fetch phase of the batch variants, from the four listing
responses to the collection handed to the batch. -/
def rmFetch (r0 : ApiResponse) (alts : List ApiResponse) : FetchResult :=
  match extractModels (fetchModelsResponse r0 alts) with
  | .arr xs => if xs.isEmpty then .noModelsFound else .ok xs
  | j => match pyLenJson j with
         | some 0 => .noModelsFound
         | _ => .typeError

/-- All fetched records parsed as dicts; `none` models the uncaught
`AttributeError` a non-dict record raises in the collection loop. -/
def allDicts : List Json → Option (List Dict)
  | [] => some []
  | .obj kvs :: rest =>
      match allDicts rest with
      | some ds => some (kvs :: ds)
      | none => none
  | _ => none

/-- How a whole batch run ends: `sys.exit` with a code, an uncaught
exception, or normal completion (exit 0) with a summary. -/
inductive RunResult where
  | fatal (code : Nat)
  | crash
  | finished (summary : Summary)
  deriving Repr, DecidableEq

/-- `update_models` of the batch variants, end to end: discovery over the
four listing responses, the zero-record fatal exit, then the batch and
its summary.  No `sys.exit` occurs after the fetch phase, so a run that
reaches the batch always exits 0. -/
def runUpdateModels (env : UpdateCall → ApiResponse) (targetModel : String)
    (r0 : ApiResponse) (alts : List ApiResponse) : RunResult :=
  match rmFetch r0 alts with
  | .noModelsFound => .fatal 1
  | .typeError => .crash
  | .ok models =>
      match allDicts models with
      | some ds => .finished (runSummary env targetModel ds)
      | none => .crash

/-- Outcome of the fetch phase of `update-models.py`, whose two fatal
messages are distinct: `"Failed to fetch models from any endpoint"`
(falsy `models_response`) and `"No models found in the API response"`
(truthy `models_response` that is not a list, so `models = []`). -/
inductive UmFetch where
  | fetchFailed
  | noModelsFound
  | ok (models : List Json)
  deriving Repr

/-- The endpoint loop of `update-models.py` lines 93-104: on a truthy
list response, break with the list; on a truthy dict response holding a
`models` or `data` key, break with the extracted value; otherwise try the
next endpoint, leaving `models_response` as `None` when all four fail. -/
def umLoop : List ApiResponse → Option Json
  | [] => none
  | r :: rs =>
      if r.truthy && r.isList then r.jsonVal
      else if r.truthy && r.isDict &&
              (hasKey r.objEntries "models" || hasKey r.objEntries "data") then
        some (getD r.objEntries "models" (getD r.objEntries "data" (.arr [])))
      else umLoop rs

/-- The fetch phase of `update-models.py` lines 93-118: a falsy loop
result (including a successfully extracted empty list) is logged as fetch
failure; a truthy non-list result leaves `models = []` and is logged as
no models found; both call `sys.exit(1)`. -/
def umFetchOutcome (resps : List ApiResponse) : UmFetch :=
  match umLoop resps with
  | none => .fetchFailed
  | some j =>
      if j.truthy then
        match j with
        | .arr xs => .ok xs
        | _ => .noModelsFound
      else .fetchFailed

/-- Exit behaviour of the fetch phase of `update-models.py`: both fatal
cases exit 1; `none` means the run continues past the fetch phase. -/
def umFetchExit : UmFetch → Option Nat
  | .fetchFailed => some 1
  | .noModelsFound => some 1
  | .ok _ => none

/-- The break value of the endpoint loop of `update-models.py`, for the
response the loop breaks on: the list itself, or the `models`/`data`
extraction of a dict. -/
def breakValue (r : ApiResponse) : Option Json :=
  if r.truthy && r.isList then r.jsonVal
  else some (getD r.objEntries "models" (getD r.objEntries "data" (.arr [])))

section DictLemmas

theorem findEntry_nil (k : String) : findEntry [] k = none := rfl

theorem findEntry_cons (p : String × Json) (t : Dict) (k : String) :
    findEntry (p :: t) k = if p.1 == k then some p.2 else findEntry t k := by
  by_cases h : p.1 = k
  · simp [findEntry, List.find?, h]
  · have hb : (p.1 == k) = false := by simpa using h
    simp [findEntry, List.find?, hb]

theorem hasKey_nil (k : String) : hasKey [] k = false := rfl

theorem hasKey_cons (p : String × Json) (t : Dict) (k : String) :
    hasKey (p :: t) k = ((p.1 == k) || hasKey t k) := by
  rw [hasKey, findEntry_cons]
  by_cases h : p.1 = k <;> simp [h, hasKey]

theorem findEntry_mapRepl_ne (d : Dict) (k kq : String) (v : Json) (h : kq ≠ k) :
    findEntry (d.map (fun p => if p.1 == k then (k, v) else p)) kq = findEntry d kq := by
  induction d with
  | nil => rfl
  | cons p t ih =>
    have hkq : k ≠ kq := fun e => h e.symm
    by_cases hp : p.1 = k
    · simp only [List.map_cons, findEntry_cons]
      simp [hp, hkq]
      simpa using ih
    · simp only [List.map_cons, findEntry_cons]
      simp only [show ((if p.1 == k then (k, v) else p)) = p by simp [hp]]
      by_cases hq : p.1 = kq
      · simp [hq]
      · simp only [show ((p.1 == kq)) = false by simpa using hq]
        simp
        simpa using ih

theorem findEntry_append_not_found (d e : Dict) (k : String)
    (h : findEntry d k = none) :
    findEntry (d ++ e) k = findEntry e k := by
  induction d with
  | nil => rfl
  | cons p t ih =>
    rw [findEntry_cons] at h
    by_cases hp : p.1 = k
    · simp [hp] at h
    · have hb : (p.1 == k) = false := by simpa using hp
      rw [hb, if_neg (by simp)] at h
      simpa [findEntry_cons, hb] using ih h

theorem findEntry_mapRepl_self (d : Dict) (k : String) (v : Json)
    (h : hasKey d k = true) :
    findEntry (d.map (fun p => if p.1 == k then (k, v) else p)) k = some v := by
  induction d with
  | nil => simp [hasKey, findEntry, List.find?] at h
  | cons p t ih =>
    by_cases hp : p.1 = k
    · simp [List.map_cons, hp, findEntry_cons]
    · have hb : (p.1 == k) = false := by simpa using hp
      have ht : hasKey t k = true := by
        rw [hasKey_cons, hb] at h
        simpa using h
      simp only [List.map_cons, findEntry_cons]
      simp only [show ((if p.1 == k then (k, v) else p)) = p by simp [hp]]
      simp only [hb]
      simp
      simpa using ih ht

theorem findEntry_append_single_ne (d : Dict) (k kq : String) (v : Json)
    (h : kq ≠ k) :
    findEntry (d ++ [(k, v)]) kq = findEntry d kq := by
  induction d with
  | nil =>
    have hb : (k == kq) = false := by simpa using (fun e => h e.symm)
    simp [findEntry_cons, hb, findEntry_nil]
  | cons p t ih =>
    rw [List.cons_append, findEntry_cons, findEntry_cons]
    by_cases hp : p.1 = kq
    · simp [hp]
    · have hb : (p.1 == kq) = false := by simpa using hp
      simp [hb, ih]

theorem findEntry_setKey_self (d : Dict) (k : String) (v : Json) :
    findEntry (setKey d k v) k = some v := by
  unfold setKey
  by_cases h : hasKey d k
  · rw [if_pos h]
    exact findEntry_mapRepl_self d k v h
  · rw [if_neg h]
    have hn : findEntry d k = none := by
      rw [hasKey] at h
      cases hf : findEntry d k with
      | none => rfl
      | some v => exact absurd (by rw [hf]; rfl) h
    rw [findEntry_append_not_found d _ k hn, findEntry_cons]
    simp

theorem findEntry_setKey_ne (d : Dict) (k kq : String) (v : Json) (h : kq ≠ k) :
    findEntry (setKey d k v) kq = findEntry d kq := by
  unfold setKey
  by_cases hk : hasKey d k
  · rw [if_pos hk, findEntry_mapRepl_ne d k kq v h]
  · rw [if_neg hk]
    exact findEntry_append_single_ne d k kq v h

theorem getD_setKey_self (d : Dict) (k : String) (v dflt : Json) :
    getD (setKey d k v) k dflt = v := by
  rw [getD, findEntry_setKey_self]

theorem getD_setKey_ne (d : Dict) (k kq : String) (v dflt : Json) (h : kq ≠ k) :
    getD (setKey d k v) kq dflt = getD d kq dflt := by
  rw [getD, findEntry_setKey_ne d k kq v h, getD]

theorem hasKey_setKey_self (d : Dict) (k : String) (v : Json) :
    hasKey (setKey d k v) k = true := by
  rw [hasKey, findEntry_setKey_self]; rfl

theorem hasKey_setKey_ne (d : Dict) (k kq : String) (v : Json) (h : kq ≠ k) :
    hasKey (setKey d k v) kq = hasKey d kq := by
  rw [hasKey, findEntry_setKey_ne d k kq v h, hasKey]

theorem hasKey_setKey_elim (d : Dict) (k kq : String) (v : Json)
    (h : hasKey (setKey d k v) kq = true) : kq = k ∨ hasKey d kq = true := by
  by_cases he : kq = k
  · exact Or.inl he
  · exact Or.inr (by rw [← hasKey_setKey_ne d k kq v he]; exact h)

theorem getD_of_hasKey_false (d : Dict) (k : String) (dflt : Json)
    (h : hasKey d k = false) : getD d k dflt = dflt := by
  rw [hasKey] at h
  rw [getD]
  cases hf : findEntry d k with
  | none => rfl
  | some v => rw [hf] at h; simp at h

theorem getD_irrel_of_hasKey (d : Dict) (k : String) (d1 d2 : Json)
    (h : hasKey d k = true) : getD d k d1 = getD d k d2 := by
  rw [hasKey] at h
  cases hf : findEntry d k with
  | none => rw [hf] at h; simp at h
  | some v => rw [getD, getD, hf]

end DictLemmas

section RunLemmas

theorem pyEq_null_left (j : Json) (h : j.isNull = false) :
    pyEq Json.null j = false := by
  cases j <;> first | rfl | (simp [Json.isNull] at h)

theorem truthy_obj_of_hasKey (kvs : Dict) (k : String) (h : hasKey kvs k = true) :
    (Json.obj kvs).truthy = true := by
  cases kvs with
  | nil => simp [hasKey, findEntry, List.find?] at h
  | cons p t => rfl

theorem countP_outcomes (outs : List Outcome) :
    outs.countP Outcome.isUpdated + outs.countP Outcome.isSkipped
      + outs.countP Outcome.isFailed = outs.length := by
  induction outs with
  | nil => rfl
  | cons o t ih =>
    cases o <;>
      simp [List.countP_cons, Outcome.isUpdated, Outcome.isSkipped,
            Outcome.isFailed] <;>
      omega

theorem runSummary_total (env : UpdateCall → ApiResponse) (targetModel : String)
    (models : List Dict) :
    (runSummary env targetModel models).successful
      + (runSummary env targetModel models).skipped
      + (runSummary env targetModel models).failed = models.length := by
  have h := countP_outcomes (models.map (classifyModel env targetModel))
  simpa [runSummary] using h

theorem allDicts_length (xs : List Json) (ds : List Dict)
    (h : allDicts xs = some ds) : ds.length = xs.length := by
  induction xs generalizing ds with
  | nil => simp [allDicts] at h; simp [← h]
  | cons x t ih =>
    cases x <;> simp [allDicts] at h
    rename_i kvs
    cases ht : allDicts t with
    | none => rw [ht] at h; simp at h
    | some ds2 =>
      rw [ht] at h
      simp at h
      rw [← h]
      simp [ih ds2 ht]

theorem extractModels_of_not_listingOk (r : ApiResponse)
    (h : listingOk r = false) : extractModels r = Json.arr [] := by
  cases r with
  | noResp => rfl
  | text s => rfl
  | json j =>
    cases j with
    | null => rfl
    | bool b => rfl
    | num n => rfl
    | str s => rfl
    | arr xs =>
      cases xs with
      | nil => rfl
      | cons y ys =>
        simp [listingOk, ApiResponse.truthy, Json.truthy, ApiResponse.isList] at h
    | obj kvs =>
      cases kvs with
      | nil => rfl
      | cons p t =>
        simp [listingOk, ApiResponse.truthy, Json.truthy, ApiResponse.isDict,
              ApiResponse.objEntries] at h
        simp [extractModels, getD_of_hasKey_false _ _ _ h.2.1,
              getD_of_hasKey_false _ _ _ h.2.2]

theorem loopFetch_first_success (rs : List ApiResponse) (cur rr : ApiResponse)
    (h : rs.find? listingOk = some rr) : loopFetch cur rs = rr := by
  induction rs generalizing cur with
  | nil => simp [List.find?] at h
  | cons r t ih =>
    cases hr : listingOk r with
    | true =>
      rw [List.find?_cons_of_pos _ hr] at h
      cases h
      simp [loopFetch, hr]
    | false =>
      rw [List.find?_cons_of_neg _ (by simp [hr])] at h
      simp [loopFetch, hr]
      exact ih r h

theorem loopFetch_all_fail (rs : List ApiResponse) (cur : ApiResponse)
    (hc : listingOk cur = false) (h : ∀ r ∈ rs, listingOk r = false) :
    listingOk (loopFetch cur rs) = false := by
  induction rs generalizing cur with
  | nil => exact hc
  | cons r t ih =>
    have hr : listingOk r = false := h r (by simp)
    simp [loopFetch, hr]
    exact ih r hr (fun x hx => h x (by simp [hx]))

theorem umLoop_eq_find (resps : List ApiResponse) :
    umLoop resps = (resps.find? listingOk).bind breakValue := by
  induction resps with
  | nil => rfl
  | cons r t ih =>
    by_cases h1 : (r.truthy && r.isList) = true
    · obtain ⟨ht, hl⟩ : r.truthy = true ∧ r.isList = true := by simpa using h1
      have hok : listingOk r = true := by simp [listingOk, ht, hl]
      rw [List.find?_cons_of_pos _ hok]
      simp [umLoop, breakValue, ht, hl]
    · by_cases h2 : (r.truthy && r.isDict &&
          (hasKey r.objEntries "models" || hasKey r.objEntries "data")) = true
      · obtain ⟨⟨ht, hd⟩, hkeys⟩ : (r.truthy = true ∧ r.isDict = true) ∧
            (hasKey r.objEntries "models" || hasKey r.objEntries "data") = true := by
          simpa using h2
        have hok : listingOk r = true := by simp [listingOk, ht, hd, hkeys]
        have hnl : r.isList = false := by
          cases hll : r.isList
          · rfl
          · exact absurd (by simp [ht, hll]) h1
        rw [List.find?_cons_of_pos _ hok]
        simp [umLoop, breakValue, ht, hd, hkeys, hnl]
      · have hok : listingOk r = false := by
          cases hlo : listingOk r with
          | false => rfl
          | true =>
            obtain ⟨ht, hrest⟩ : r.truthy = true ∧ (r.isList ||
                (r.isDict && (hasKey r.objEntries "models"
                  || hasKey r.objEntries "data"))) = true := by
              simpa [listingOk] using hlo
            rcases (by simpa using hrest :
                r.isList = true ∨ r.isDict = true ∧
                  (hasKey r.objEntries "models" = true
                    ∨ hasKey r.objEntries "data" = true)) with hl | ⟨hd, hk⟩
            · exact absurd (by simp [ht, hl]) h1
            · rcases hk with hk | hk
              · exact absurd (by simp [ht, hd, hk]) h2
              · exact absurd (by simp [ht, hd, hk]) h2
        rw [List.find?_cons_of_neg _ (by simp [hok])]
        have humLoop : umLoop (r :: t) = umLoop t := by
          simp only [umLoop]
          rw [if_neg h1, if_neg h2]
        rw [humLoop, ih]

end RunLemmas

section PayloadLemmas

/-- The three defaulting steps of the payload builder, factored for the
frame lemmas; `buildUpdatePayload` unfolds to this by `rfl`. -/
def afterDefaults (d : Dict) (nm mt : Json) : Dict :=
  let p2 := if hasKey d "name" then d else setKey d "name" nm
  let p3 := if hasKey p2 "meta" then p2 else setKey p2 "meta" mt
  if hasKey p3 "params" then p3 else setKey p3 "params" (.obj [])

theorem buildUpdatePayload_eq (model : Dict) (t : String) :
    buildUpdatePayload model t =
      afterDefaults (setKey model "base_model_id" (.str t))
        (getD model "name" (.str "unknown"))
        (defaultMeta (getD model "name" (.str "unknown")) t) := rfl

theorem stepDefault_preserve (d : Dict) (key kq : String) (w : Json)
    (dflt : Json) (hq : hasKey d kq = true) :
    hasKey (if hasKey d key then d else setKey d key w) kq = true ∧
    getD (if hasKey d key then d else setKey d key w) kq dflt = getD d kq dflt := by
  by_cases hk : hasKey d key = true
  · rw [if_pos hk]
    exact ⟨hq, rfl⟩
  · have hne : kq ≠ key := fun e => hk (e ▸ hq)
    rw [if_neg hk]
    exact ⟨by rw [hasKey_setKey_ne d key kq w hne]; exact hq,
           getD_setKey_ne d key kq w dflt hne⟩

theorem stepDefault_ne (d : Dict) (key kq : String) (w : Json) (dflt : Json)
    (hne : kq ≠ key) :
    hasKey (if hasKey d key then d else setKey d key w) kq = hasKey d kq ∧
    getD (if hasKey d key then d else setKey d key w) kq dflt = getD d kq dflt := by
  by_cases hk : hasKey d key = true
  · rw [if_pos hk]
    exact ⟨rfl, rfl⟩
  · rw [if_neg hk]
    exact ⟨hasKey_setKey_ne d key kq w hne, getD_setKey_ne d key kq w dflt hne⟩

theorem stepDefault_keys (d : Dict) (key kq : String) (w : Json)
    (h : hasKey (if hasKey d key then d else setKey d key w) kq = true) :
    hasKey d kq = true ∨ kq = key := by
  by_cases hk : hasKey d key = true
  · rw [if_pos hk] at h
    exact Or.inl h
  · rw [if_neg hk] at h
    rcases hasKey_setKey_elim d key kq w h with he | hd
    · exact Or.inr he
    · exact Or.inl hd

theorem afterDefaults_preserve (d : Dict) (kq : String) (nm mt : Json)
    (dflt : Json) (hq : hasKey d kq = true) :
    hasKey (afterDefaults d nm mt) kq = true ∧
    getD (afterDefaults d nm mt) kq dflt = getD d kq dflt := by
  obtain ⟨h2k, h2g⟩ := stepDefault_preserve d "name" kq nm dflt hq
  obtain ⟨h3k, h3g⟩ := stepDefault_preserve _ "meta" kq mt dflt h2k
  obtain ⟨h4k, h4g⟩ := stepDefault_preserve _ "params" kq (.obj []) dflt h3k
  exact ⟨h4k, by rw [afterDefaults, h4g, h3g, h2g]⟩

theorem afterDefaults_keys (d : Dict) (kq : String) (nm mt : Json)
    (h : hasKey (afterDefaults d nm mt) kq = true) :
    hasKey d kq = true ∨ kq = "name" ∨ kq = "meta" ∨ kq = "params" := by
  rw [afterDefaults] at h
  rcases stepDefault_keys _ "params" kq _ h with h3 | he
  · rcases stepDefault_keys _ "meta" kq _ h3 with h2 | he
    · rcases stepDefault_keys _ "name" kq _ h2 with h1 | he
      · exact Or.inl h1
      · exact Or.inr (Or.inl he)
    · exact Or.inr (Or.inr (Or.inl he))
  · exact Or.inr (Or.inr (Or.inr he))

theorem afterDefaults_name (d : Dict) (nm mt : Json)
    (h : hasKey d "name" = false) :
    getD (afterDefaults d nm mt) "name" Json.null = nm := by
  rw [afterDefaults]
  have e2 : (if hasKey d "name" then d else setKey d "name" nm)
      = setKey d "name" nm := by
    rw [h]; simp
  rw [e2]
  have hk2 : hasKey (setKey d "name" nm) "name" = true :=
    hasKey_setKey_self d "name" nm
  obtain ⟨h3k, h3g⟩ :=
    stepDefault_preserve (setKey d "name" nm) "meta" "name" mt Json.null hk2
  obtain ⟨_, h4g⟩ :=
    stepDefault_preserve (if hasKey (setKey d "name" nm) "meta"
        then setKey d "name" nm
        else setKey (setKey d "name" nm) "meta" mt)
      "params" "name" (.obj []) Json.null h3k
  rw [h4g, h3g, getD_setKey_self]

theorem afterDefaults_meta (d : Dict) (nm mt : Json)
    (h : hasKey d "meta" = false) :
    getD (afterDefaults d nm mt) "meta" Json.null = mt := by
  rw [afterDefaults]
  obtain ⟨h2k, _⟩ := stepDefault_ne d "name" "meta" nm Json.null (by decide)
  rw [h] at h2k
  have e3 : (if hasKey (if hasKey d "name" then d else setKey d "name" nm) "meta"
        then (if hasKey d "name" then d else setKey d "name" nm)
        else setKey (if hasKey d "name" then d else setKey d "name" nm) "meta" mt)
      = setKey (if hasKey d "name" then d else setKey d "name" nm) "meta" mt := by
    rw [h2k]; simp
  rw [e3]
  have hk3 : hasKey (setKey (if hasKey d "name" then d else setKey d "name" nm)
      "meta" mt) "meta" = true :=
    hasKey_setKey_self (if hasKey d "name" then d else setKey d "name" nm) "meta" mt
  obtain ⟨_, h4g⟩ :=
    stepDefault_preserve
      (setKey (if hasKey d "name" then d else setKey d "name" nm) "meta" mt)
      "params" "meta" (.obj []) Json.null hk3
  rw [h4g, getD_setKey_self]

theorem afterDefaults_params (d : Dict) (nm mt : Json)
    (h : hasKey d "params" = false) :
    getD (afterDefaults d nm mt) "params" Json.null = Json.obj [] := by
  rw [afterDefaults]
  obtain ⟨h2k, _⟩ := stepDefault_ne d "name" "params" nm Json.null (by decide)
  rw [h] at h2k
  obtain ⟨h3k, _⟩ :=
    stepDefault_ne (if hasKey d "name" then d else setKey d "name" nm)
      "meta" "params" mt Json.null (by decide)
  rw [h2k] at h3k
  have e4 : (if hasKey (if hasKey (if hasKey d "name" then d
            else setKey d "name" nm) "meta"
          then (if hasKey d "name" then d else setKey d "name" nm)
          else setKey (if hasKey d "name" then d else setKey d "name" nm)
            "meta" mt) "params"
        then (if hasKey (if hasKey d "name" then d else setKey d "name" nm) "meta"
          then (if hasKey d "name" then d else setKey d "name" nm)
          else setKey (if hasKey d "name" then d else setKey d "name" nm)
            "meta" mt)
        else setKey (if hasKey (if hasKey d "name" then d
            else setKey d "name" nm) "meta"
          then (if hasKey d "name" then d else setKey d "name" nm)
          else setKey (if hasKey d "name" then d else setKey d "name" nm)
            "meta" mt) "params" (.obj []))
      = setKey (if hasKey (if hasKey d "name" then d else setKey d "name" nm)
            "meta"
          then (if hasKey d "name" then d else setKey d "name" nm)
          else setKey (if hasKey d "name" then d else setKey d "name" nm)
            "meta" mt) "params" (.obj []) := by
    rw [h3k]; simp
  rw [e4, getD_setKey_self]

end PayloadLemmas

section Fixtures

/-- A network on which every call fails at transport level, so
`make_api_call` returns `None` everywhere. -/
def envNoResp : UpdateCall → ApiResponse := fun _ => ApiResponse.noResp

/-- A record whose `base_model_id` already equals the target model of the
run with target `"target-x"`. -/
def mAlreadyAtTarget : Dict :=
  [("id", Json.str "m1"), ("base_model_id", Json.str "target-x")]

/-- A record with no `id` key at all. -/
def mMissingId : Dict :=
  [("name", Json.str "x"), ("base_model_id", Json.str "b")]

/-- A record with a valid id, a stale base model, and an extra key the
tool does not understand. -/
def mPending : Dict :=
  [("id", Json.str "m2"), ("base_model_id", Json.str "old"),
   ("extra", Json.num 7)]

end Fixtures

theorem calls_payload_eq (env : UpdateCall → ApiResponse) (t : String)
    (model : Dict) :
    ∀ c ∈ (update_single_model env t model).calls,
      c.payload = buildUpdatePayload model t := by
  intro c hc
  unfold update_single_model at hc
  by_cases h1 : invalidId (getD model "id" (Json.str "unknown")) = true
  · rw [if_pos h1] at hc
    simp at hc
  · rw [if_neg h1] at hc
    by_cases h2 : pyEq (getD model "base_model_id" (Json.str "unknown"))
        (Json.str t) = true
    · rw [if_pos h2] at hc
      simp at hc
    · rw [if_neg h2] at hc
      by_cases h3 : updateOk
          (env ⟨"/models/model/update", buildUpdatePayload model t,
            [("id", getD model "id" (Json.str "unknown"))]⟩)
          (getD model "id" (Json.str "unknown")) = true
      · rw [if_pos h3] at hc
        simp at hc
        rw [hc]
      · rw [if_neg h3] at hc
        simp at hc
        rcases hc with hc | hc <;> rw [hc]

/-- C1: for every fetched record dispatched for update, the payload is the
record with `base_model_id` overwritten to the target model, every other
key of the original record present and unchanged, defaults for `name`,
`meta` and `params` inserted exactly when those keys are absent, no keys
beyond those, and every POST issued carries exactly this payload. -/
theorem c1_payload_integrity (env : UpdateCall → ApiResponse)
    (targetModel : String) (model : Dict) :
    (hasKey (buildUpdatePayload model targetModel) "base_model_id" = true ∧
      ∀ dflt, getD (buildUpdatePayload model targetModel) "base_model_id" dflt
        = Json.str targetModel) ∧
    (∀ k dflt, k ≠ "base_model_id" → hasKey model k = true →
      hasKey (buildUpdatePayload model targetModel) k = true ∧
      getD (buildUpdatePayload model targetModel) k dflt = getD model k dflt) ∧
    (hasKey model "name" = false →
      getD (buildUpdatePayload model targetModel) "name" Json.null
        = Json.str "unknown") ∧
    (hasKey model "meta" = false →
      getD (buildUpdatePayload model targetModel) "meta" Json.null
        = defaultMeta (getD model "name" (Json.str "unknown")) targetModel) ∧
    (hasKey model "params" = false →
      getD (buildUpdatePayload model targetModel) "params" Json.null
        = Json.obj []) ∧
    (∀ k, hasKey (buildUpdatePayload model targetModel) k = true →
      hasKey model k = true ∨ k = "base_model_id" ∨ k = "name" ∨ k = "meta"
        ∨ k = "params") ∧
    (∀ c ∈ (update_single_model env targetModel model).calls,
      c.payload = buildUpdatePayload model targetModel) := by
  rw [buildUpdatePayload_eq]
  refine ⟨⟨?_, ?_⟩, ?_, ?_, ?_, ?_, ?_, ?_⟩
  · exact (afterDefaults_preserve _ "base_model_id" _ _ Json.null
      (hasKey_setKey_self model "base_model_id" (Json.str targetModel))).1
  · intro dflt
    rw [(afterDefaults_preserve _ "base_model_id" _ _ dflt
      (hasKey_setKey_self model "base_model_id" (Json.str targetModel))).2]
    exact getD_setKey_self model "base_model_id" (Json.str targetModel) dflt
  · intro k dflt hk hm
    have hk1 : hasKey (setKey model "base_model_id" (Json.str targetModel)) k
        = true := by
      rw [hasKey_setKey_ne model "base_model_id" k (Json.str targetModel) hk]
      exact hm
    obtain ⟨hpk, hpg⟩ := afterDefaults_preserve
      (setKey model "base_model_id" (Json.str targetModel)) k
      (getD model "name" (Json.str "unknown"))
      (defaultMeta (getD model "name" (Json.str "unknown")) targetModel)
      dflt hk1
    exact ⟨hpk,
      by rw [hpg, getD_setKey_ne model "base_model_id" k _ dflt hk]⟩
  · intro hnm
    have hk1 : hasKey (setKey model "base_model_id" (Json.str targetModel))
        "name" = false := by
      rw [hasKey_setKey_ne model "base_model_id" "name" _ (by decide)]
      exact hnm
    rw [afterDefaults_name _ _ _ hk1]
    exact getD_of_hasKey_false model "name" (Json.str "unknown") hnm
  · intro hmt
    have hk1 : hasKey (setKey model "base_model_id" (Json.str targetModel))
        "meta" = false := by
      rw [hasKey_setKey_ne model "base_model_id" "meta" _ (by decide)]
      exact hmt
    exact afterDefaults_meta _ _ _ hk1
  · intro hpr
    have hk1 : hasKey (setKey model "base_model_id" (Json.str targetModel))
        "params" = false := by
      rw [hasKey_setKey_ne model "base_model_id" "params" _ (by decide)]
      exact hpr
    exact afterDefaults_params _ _ _ hk1
  · intro k hkp
    rcases afterDefaults_keys _ k _ _ hkp with h1 | h
    · rcases hasKey_setKey_elim model "base_model_id" k _ h1 with he | hm
      · exact Or.inr (Or.inl he)
      · exact Or.inl hm
    · rcases h with h | h | h
      · exact Or.inr (Or.inr (Or.inl h))
      · exact Or.inr (Or.inr (Or.inr (Or.inl h)))
      · exact Or.inr (Or.inr (Or.inr (Or.inr h)))
  · rw [← buildUpdatePayload_eq]
    exact calls_payload_eq env targetModel model

theorem c1_payload_integrity_witness :
    getD (buildUpdatePayload mPending "tm") "extra" Json.null = Json.num 7 ∧
    getD (buildUpdatePayload mPending "tm") "base_model_id" Json.null
      = Json.str "tm" := by
  have h := c1_payload_integrity envNoResp "tm" mPending
  refine ⟨?_, h.1.2 Json.null⟩
  rw [(h.2.1 "extra" Json.null (by decide) (by rfl)).2]
  rfl

/-- C2: evaluation of the batch code on a record already at the target
model.  `update_single_model` returns `True` without issuing any POST, so
the collection loop counts the record under `successful_updates` and the
`skipped_updates` counter stays 0 — the claim (and the script's own
skipped counter and summary label) say such a record counts as skipped. -/
theorem c2_already_at_target_counted_updated :
    update_single_model envNoResp "target-x" mAlreadyAtTarget
      = ⟨true, [], 1⟩ ∧
    classifyModel envNoResp "target-x" mAlreadyAtTarget = Outcome.updated ∧
    runSummary envNoResp "target-x" [mAlreadyAtTarget]
      = ⟨1, 0, 0⟩ :=
  ⟨rfl, rfl, rfl⟩

/-- C3 counterexample: a record with no `id` key and a stale base model.
No POST is issued and the progress bar advances by one, as the claim
says, but the record is NOT excluded from the totals: the collection
loop counts it under `failed_updates`, so the summary is (0, 0, 1)
rather than (0, 0, 0). -/
theorem c3_counterexample :
    update_single_model envNoResp "t" mMissingId = ⟨false, [], 1⟩ ∧
    classifyModel envNoResp "t" mMissingId = Outcome.failed ∧
    runSummary envNoResp "t" [mMissingId] = ⟨0, 0, 1⟩ :=
  ⟨rfl, rfl, rfl⟩

/-- C3 amended: for every record whose `id` is missing or `"unknown"`,
no network call is issued and the progress indicator advances by one,
but the record is not excluded from the summary totals: it is counted as
failed when its `base_model_id` differs from the target and as skipped
when it equals the target. -/
theorem c3_invalid_id_amended (env : UpdateCall → ApiResponse)
    (targetModel : String) (model : Dict)
    (h : invalidId (getD model "id" (Json.str "unknown")) = true) :
    update_single_model env targetModel model = ⟨false, [], 1⟩ ∧
    classifyModel env targetModel model =
      (if pyEq (getD model "base_model_id" (Json.str "unknown"))
          (Json.str targetModel)
       then Outcome.skipped else Outcome.failed) := by
  have h1 : update_single_model env targetModel model = ⟨false, [], 1⟩ := by
    unfold update_single_model
    rw [if_pos h]
  refine ⟨h1, ?_⟩
  unfold classifyModel
  rw [h1]
  simp

theorem c3_invalid_id_amended_witness :
    update_single_model envNoResp "t2" mMissingId = ⟨false, [], 1⟩ ∧
    classifyModel envNoResp "t2" mMissingId =
      (if pyEq (getD mMissingId "base_model_id" (Json.str "unknown"))
          (Json.str "t2")
       then Outcome.skipped else Outcome.failed) :=
  c3_invalid_id_amended envNoResp "t2" mMissingId (by rfl)

/-- C10: in the batch variants a record is classified as skipped iff its
id is missing or `"unknown"` AND its `base_model_id` equals the target;
a record with a valid id whose `base_model_id` already equals the target
is classified as successfully updated, so the skipped branch is
unreachable for valid-id records. -/
theorem c10_skipped_iff_invalid_at_target (env : UpdateCall → ApiResponse)
    (targetModel : String) (model : Dict) :
    (classifyModel env targetModel model = Outcome.skipped ↔
      invalidId (getD model "id" (Json.str "unknown")) = true ∧
      pyEq (getD model "base_model_id" (Json.str "unknown"))
        (Json.str targetModel) = true) ∧
    (invalidId (getD model "id" (Json.str "unknown")) = false →
      pyEq (getD model "base_model_id" (Json.str "unknown"))
        (Json.str targetModel) = true →
      classifyModel env targetModel model = Outcome.updated) := by
  by_cases hid : invalidId (getD model "id" (Json.str "unknown")) = true
  · have h1 : update_single_model env targetModel model = ⟨false, [], 1⟩ := by
      unfold update_single_model
      rw [if_pos hid]
    constructor
    · unfold classifyModel
      rw [h1]
      by_cases hb : pyEq (getD model "base_model_id" (Json.str "unknown"))
          (Json.str targetModel) = true
      · simp [hb, hid]
      · simp [hb, hid]
    · intro hvalid
      rw [hid] at hvalid
      exact absurd hvalid (by simp)
  · have hid2 : invalidId (getD model "id" (Json.str "unknown")) = false := by
      simpa using hid
    by_cases hb : pyEq (getD model "base_model_id" (Json.str "unknown"))
        (Json.str targetModel) = true
    · have h1 : update_single_model env targetModel model = ⟨true, [], 1⟩ := by
        unfold update_single_model
        rw [if_neg hid, if_pos hb]
      constructor
      · unfold classifyModel
        rw [h1]
        simp [hid2]
      · intro _ _
        unfold classifyModel
        rw [h1]
        rfl
    · constructor
      · unfold classifyModel
        constructor
        · intro hc
          by_cases hs : (update_single_model env targetModel model).success = true
          · rw [if_pos hs] at hc
            exact absurd hc (by simp)
          · rw [if_neg hs, if_neg hb] at hc
            exact absurd hc (by simp)
        · intro ⟨_, hbt⟩
          exact absurd hbt hb
      · intro _ hbt
        exact absurd hbt hb

theorem c10_skipped_iff_invalid_at_target_witness :
    classifyModel envNoResp "target-x" mAlreadyAtTarget = Outcome.updated :=
  (c10_skipped_iff_invalid_at_target envNoResp "target-x"
    mAlreadyAtTarget).2 (by rfl) (by rfl)

/-- A one-record listing response holding the `mPending` record. -/
def oneRecordListing : ApiResponse :=
  ApiResponse.json (Json.arr [Json.obj mPending])

/-- C9: in the parallel batch variants every fetched record lands in
exactly one of the three counters, so successful + skipped + failed
equals the number of fetched records, for every run that reaches the
summary — invalid-id records included in the totals. -/
theorem c9_counters_partition (env : UpdateCall → ApiResponse)
    (targetModel : String) (models : List Dict) (r0 : ApiResponse)
    (alts : List ApiResponse) :
    ((runSummary env targetModel models).successful
      + (runSummary env targetModel models).skipped
      + (runSummary env targetModel models).failed = models.length) ∧
    (∀ s xs, rmFetch r0 alts = FetchResult.ok xs →
      runUpdateModels env targetModel r0 alts = RunResult.finished s →
      s.successful + s.skipped + s.failed = xs.length) := by
  refine ⟨runSummary_total env targetModel models, ?_⟩
  intro s xs hok hrun
  cases hds : allDicts xs with
  | none =>
    have hcomp : runUpdateModels env targetModel r0 alts = RunResult.crash := by
      unfold runUpdateModels
      rw [hok]
      show (match allDicts xs with
        | some ds2 => RunResult.finished (runSummary env targetModel ds2)
        | none => RunResult.crash) = RunResult.crash
      rw [hds]
    rw [hcomp] at hrun
    exact RunResult.noConfusion hrun
  | some ds =>
    have hcomp : runUpdateModels env targetModel r0 alts
        = RunResult.finished (runSummary env targetModel ds) := by
      unfold runUpdateModels
      rw [hok]
      show (match allDicts xs with
        | some ds2 => RunResult.finished (runSummary env targetModel ds2)
        | none => RunResult.crash)
        = RunResult.finished (runSummary env targetModel ds)
      rw [hds]
    rw [hcomp] at hrun
    injection hrun with h
    rw [← h, runSummary_total, allDicts_length xs ds hds]

theorem c9_counters_partition_witness :
    (⟨0, 0, 1⟩ : Summary).successful + (⟨0, 0, 1⟩ : Summary).skipped
      + (⟨0, 0, 1⟩ : Summary).failed = 1 :=
  (c9_counters_partition envNoResp "t" [] oneRecordListing []).2
    ⟨0, 0, 1⟩ [Json.obj mPending] rfl rfl

/-- C6: for a dispatched record, an update attempt succeeds iff the
response is a JSON object containing an `id` field equal to the record's
id; on primary failure exactly one retry goes to the secondary path with
identical payload and query parameters; if both fail the record is a
failure and the summary still accounts for every record of the batch. -/
theorem c6_dispatch_retry (env : UpdateCall → ApiResponse)
    (targetModel : String) (model : Dict)
    (hid : invalidId (getD model "id" (Json.str "unknown")) = false)
    (hbase : pyEq (getD model "base_model_id" (Json.str "unknown"))
      (Json.str targetModel) = false) :
    (∀ r : ApiResponse,
      updateOk r (getD model "id" (Json.str "unknown")) = true ↔
        ∃ kvs : Dict, r = ApiResponse.json (Json.obj kvs) ∧
          hasKey kvs "id" = true ∧
          pyEq (getD kvs "id" Json.null)
            (getD model "id" (Json.str "unknown")) = true) ∧
    (updateOk (env ⟨"/models/model/update", buildUpdatePayload model targetModel,
        [("id", getD model "id" (Json.str "unknown"))]⟩)
        (getD model "id" (Json.str "unknown")) = true →
      update_single_model env targetModel model =
        ⟨true, [⟨"/models/model/update", buildUpdatePayload model targetModel,
          [("id", getD model "id" (Json.str "unknown"))]⟩], 1⟩) ∧
    (updateOk (env ⟨"/models/model/update", buildUpdatePayload model targetModel,
        [("id", getD model "id" (Json.str "unknown"))]⟩)
        (getD model "id" (Json.str "unknown")) = false →
      update_single_model env targetModel model =
        ⟨updateOk (env ⟨"/models/update", buildUpdatePayload model targetModel,
            [("id", getD model "id" (Json.str "unknown"))]⟩)
          (getD model "id" (Json.str "unknown")),
         [⟨"/models/model/update", buildUpdatePayload model targetModel,
            [("id", getD model "id" (Json.str "unknown"))]⟩,
          ⟨"/models/update", buildUpdatePayload model targetModel,
            [("id", getD model "id" (Json.str "unknown"))]⟩], 1⟩) ∧
    (∀ rest : List Dict,
      (runSummary env targetModel (model :: rest)).successful
        + (runSummary env targetModel (model :: rest)).skipped
        + (runSummary env targetModel (model :: rest)).failed
        = rest.length + 1) := by
  have hid' : ¬(invalidId (getD model "id" (Json.str "unknown")) = true) := by
    simp [hid]
  have hbase' : ¬(pyEq (getD model "base_model_id" (Json.str "unknown"))
      (Json.str targetModel) = true) := by
    simp [hbase]
  have hnn : (getD model "id" (Json.str "unknown")).isNull = false := by
    cases hn : (getD model "id" (Json.str "unknown")).isNull
    · rfl
    · exact absurd (by simp [invalidId, hn]) hid'
  refine ⟨?_, ?_, ?_, ?_⟩
  · intro r
    constructor
    · intro h
      obtain ⟨⟨ht, hd⟩, hp⟩ : (r.truthy = true ∧ r.isDict = true) ∧
          pyEq (getD r.objEntries "id" Json.null)
            (getD model "id" (Json.str "unknown")) = true := by
        simpa [updateOk] using h
      cases r with
      | noResp => simp [ApiResponse.isDict] at hd
      | text s => simp [ApiResponse.isDict] at hd
      | json j =>
        cases j with
        | obj kvs =>
          refine ⟨kvs, rfl, ?_, by simpa [ApiResponse.objEntries] using hp⟩
          cases hk : hasKey kvs "id"
          · rw [ApiResponse.objEntries] at hp
            rw [getD_of_hasKey_false kvs "id" Json.null hk] at hp
            rw [pyEq_null_left _ hnn] at hp
            exact absurd hp (by simp)
          · rfl
        | null => simp [ApiResponse.isDict] at hd
        | bool b => simp [ApiResponse.isDict] at hd
        | num n => simp [ApiResponse.isDict] at hd
        | str s => simp [ApiResponse.isDict] at hd
        | arr l => simp [ApiResponse.isDict] at hd
    · rintro ⟨kvs, rfl, hk, hp⟩
      have ht : (Json.obj kvs).truthy = true := truthy_obj_of_hasKey kvs "id" hk
      simp [updateOk, ApiResponse.truthy, ht, ApiResponse.isDict,
            ApiResponse.objEntries, hp]
  · intro h3
    unfold update_single_model
    rw [if_neg hid', if_neg hbase', if_pos h3]
  · intro h3
    unfold update_single_model
    rw [if_neg hid', if_neg hbase', if_neg (by simp [h3])]
  · intro rest
    simpa using runSummary_total env targetModel (model :: rest)

/-- A network answering the primary update path for id `"m2"` and nothing
else. -/
def envPrimaryOk : UpdateCall → ApiResponse := fun c =>
  if c.endpoint == "/models/model/update"
  then ApiResponse.json (Json.obj [("id", Json.str "m2")])
  else ApiResponse.noResp

theorem c6_dispatch_retry_witness :
    update_single_model envPrimaryOk "tm" mPending =
      ⟨true, [⟨"/models/model/update", buildUpdatePayload mPending "tm",
        [("id", getD mPending "id" (Json.str "unknown"))]⟩], 1⟩ :=
  (c6_dispatch_retry envPrimaryOk "tm" mPending (by rfl) (by rfl)).2.1 (by rfl)

/-- C5: the batch variant exits 1 exactly when the fetch phase ends with
no records (which subsumes the case where no listing endpoint succeeds),
and a run past the fetch phase finishes with exit 0 and a summary, no
matter how many individual updates fail. -/
theorem c5_exit_code (env : UpdateCall → ApiResponse) (targetModel : String)
    (r0 : ApiResponse) (alts : List ApiResponse) :
    (runUpdateModels env targetModel r0 alts = RunResult.fatal 1 ↔
      rmFetch r0 alts = FetchResult.noModelsFound) ∧
    (∀ c, runUpdateModels env targetModel r0 alts = RunResult.fatal c → c = 1) ∧
    (listingOk r0 = false → (∀ r ∈ alts, listingOk r = false) →
      runUpdateModels env targetModel r0 alts = RunResult.fatal 1) ∧
    (∀ xs ds, rmFetch r0 alts = FetchResult.ok xs → allDicts xs = some ds →
      runUpdateModels env targetModel r0 alts
        = RunResult.finished (runSummary env targetModel ds)) := by
  have hfatal : ∀ c, runUpdateModels env targetModel r0 alts = RunResult.fatal c →
      rmFetch r0 alts = FetchResult.noModelsFound ∧ c = 1 := by
    intro c h
    cases hf : rmFetch r0 alts with
    | noModelsFound =>
      have hcomp : runUpdateModels env targetModel r0 alts
          = RunResult.fatal 1 := by
        unfold runUpdateModels
        rw [hf]
      rw [hcomp] at h
      injection h with hc
      exact ⟨rfl, hc.symm⟩
    | typeError =>
      have hcomp : runUpdateModels env targetModel r0 alts
          = RunResult.crash := by
        unfold runUpdateModels
        rw [hf]
      rw [hcomp] at h
      exact RunResult.noConfusion h
    | ok xs =>
      cases hds : allDicts xs with
      | none =>
        have hcomp : runUpdateModels env targetModel r0 alts
            = RunResult.crash := by
          unfold runUpdateModels
          rw [hf]
          show (match allDicts xs with
            | some ds2 => RunResult.finished (runSummary env targetModel ds2)
            | none => RunResult.crash) = RunResult.crash
          rw [hds]
        rw [hcomp] at h
        exact RunResult.noConfusion h
      | some ds =>
        have hcomp : runUpdateModels env targetModel r0 alts
            = RunResult.finished (runSummary env targetModel ds) := by
          unfold runUpdateModels
          rw [hf]
          show (match allDicts xs with
            | some ds2 => RunResult.finished (runSummary env targetModel ds2)
            | none => RunResult.crash)
            = RunResult.finished (runSummary env targetModel ds)
          rw [hds]
        rw [hcomp] at h
        exact RunResult.noConfusion h
  refine ⟨⟨fun h => (hfatal 1 h).1, fun h => ?_⟩, fun c h => (hfatal c h).2,
      ?_, ?_⟩
  · unfold runUpdateModels
    rw [h]
  · intro h0 halts
    have hcond : (r0.truthy && r0.isList) = false := by
      cases hc : (r0.truthy && r0.isList)
      · rfl
      · obtain ⟨ht, hl⟩ : r0.truthy = true ∧ r0.isList = true := by simpa using hc
        rw [listingOk, ht, hl] at h0
        simp at h0
    have hloop : listingOk (loopFetch r0 alts) = false :=
      loopFetch_all_fail alts r0 h0 halts
    have hfetch : fetchModelsResponse r0 alts = loopFetch r0 alts := by
      unfold fetchModelsResponse
      rw [hcond]
      simp
    have hempty : extractModels (fetchModelsResponse r0 alts) = Json.arr [] := by
      rw [hfetch]
      exact extractModels_of_not_listingOk _ hloop
    have hnf : rmFetch r0 alts = FetchResult.noModelsFound := by
      unfold rmFetch
      rw [hempty]
      rfl
    unfold runUpdateModels
    rw [hnf]
  · intro xs ds hok hds
    unfold runUpdateModels
    rw [hok]
    show (match allDicts xs with
      | some ds2 => RunResult.finished (runSummary env targetModel ds2)
      | none => RunResult.crash)
      = RunResult.finished (runSummary env targetModel ds)
    rw [hds]

theorem c5_exit_code_witness :
    runUpdateModels envNoResp "t" oneRecordListing [] =
      RunResult.finished (runSummary envNoResp "t" [mPending]) :=
  (c5_exit_code envNoResp "t" oneRecordListing []).2.2.2
    [Json.obj mPending] [mPending] rfl rfl

/-- An empty-list listing response, `[]`. -/
def emptyListResp : ApiResponse := ApiResponse.json (Json.arr [])

/-- C4 counterexample: when every listing endpoint of `update-models.py`
returns the empty list `[]`, the run does exit 1, but the falsy empty
response is rejected by discovery and the fatal message is
`"Failed to fetch models from any endpoint"`, not the distinct
`"No models found in the API response"` the claim requires. -/
theorem c4_counterexample :
    umFetchOutcome [emptyListResp, emptyListResp, emptyListResp, emptyListResp]
      = UmFetch.fetchFailed ∧
    umFetchExit (umFetchOutcome
      [emptyListResp, emptyListResp, emptyListResp, emptyListResp]) = some 1 :=
  ⟨rfl, rfl⟩

/-- Classification of a truthiness-checked loop value in the fetch phase
of `update-models.py` (the `some` branch of `umFetchOutcome`). -/
def umClassify (j : Json) : UmFetch :=
  if j.truthy then
    match j with
    | Json.arr xs => UmFetch.ok xs
    | _ => UmFetch.noModelsFound
  else UmFetch.fetchFailed

theorem umFetchOutcome_eq_some (resps : List ApiResponse) (j : Json)
    (hj : umLoop resps = some j) :
    umFetchOutcome resps = umClassify j := by
  unfold umFetchOutcome
  rw [hj]
  rfl

/-- C4 amended: a zero-record discovery always terminates the run
fatally with exit status 1; the batch variants log it as "no models
found", while `update-models.py` logs an empty collection as "fetch
failed" (its falsy check conflates the two) and reserves "no models
found" for a truthy accepted response whose extracted value is not a
list. -/
theorem c4_zero_records_amended (env : UpdateCall → ApiResponse)
    (targetModel : String) (r0 : ApiResponse) (alts : List ApiResponse)
    (resps : List ApiResponse) :
    (extractModels (fetchModelsResponse r0 alts) = Json.arr [] →
      rmFetch r0 alts = FetchResult.noModelsFound ∧
      runUpdateModels env targetModel r0 alts = RunResult.fatal 1) ∧
    (umLoop resps = some (Json.arr []) →
      umFetchOutcome resps = UmFetch.fetchFailed ∧
      umFetchExit (umFetchOutcome resps) = some 1) ∧
    (umLoop resps = none →
      umFetchOutcome resps = UmFetch.fetchFailed ∧
      umFetchExit (umFetchOutcome resps) = some 1) ∧
    (∀ j, umLoop resps = some j → j.truthy = true → (∀ ys, j ≠ Json.arr ys) →
      umFetchOutcome resps = UmFetch.noModelsFound ∧
      umFetchExit (umFetchOutcome resps) = some 1) := by
  refine ⟨?_, ?_, ?_, ?_⟩
  · intro hempty
    have hnf : rmFetch r0 alts = FetchResult.noModelsFound := by
      unfold rmFetch
      rw [hempty]
      rfl
    refine ⟨hnf, ?_⟩
    unfold runUpdateModels
    rw [hnf]
  · intro h
    have : umFetchOutcome resps = UmFetch.fetchFailed := by
      unfold umFetchOutcome
      rw [h]
      rfl
    exact ⟨this, by rw [this]; rfl⟩
  · intro h
    have : umFetchOutcome resps = UmFetch.fetchFailed := by
      unfold umFetchOutcome
      rw [h]
    exact ⟨this, by rw [this]; rfl⟩
  · intro j hj ht hnl
    have : umFetchOutcome resps = UmFetch.noModelsFound := by
      rw [umFetchOutcome_eq_some resps j hj]
      unfold umClassify
      rw [if_pos ht]
      cases j with
      | arr ys => exact absurd rfl (hnl ys)
      | null => rfl
      | bool b => rfl
      | num n => rfl
      | str s => rfl
      | obj kvs => rfl
    exact ⟨this, by rw [this]; rfl⟩

theorem c4_zero_records_amended_witness :
    rmFetch emptyListResp [emptyListResp, emptyListResp, emptyListResp]
      = FetchResult.noModelsFound ∧
    runUpdateModels envNoResp "t" emptyListResp
      [emptyListResp, emptyListResp, emptyListResp] = RunResult.fatal 1 :=
  (c4_zero_records_amended envNoResp "t" emptyListResp
    [emptyListResp, emptyListResp, emptyListResp] []).1 rfl

/-- Modelled from the spec wording of C7, for the refutation only: a
listing response is recognized iff the body parses as JSON and is either
a list, or a mapping containing a `models` or `data` key whose value is
a list. -/
def specListingOk : ApiResponse → Bool
  | .json (.arr _) => true
  | .json (.obj kvs) =>
      (match findEntry kvs "models" with
       | some (.arr _) => true
       | _ => false) ||
      (match findEntry kvs "data" with
       | some (.arr _) => true
       | _ => false)
  | _ => false

/-- C7 counterexample: the empty JSON list `[]` satisfies the claim's
recognition predicate but the code rejects it (Python truthiness), and a
mapping whose `models` value is the non-list `3` fails the claim's
predicate but the code accepts it (the value's type is never checked). -/
theorem c7_counterexample :
    listingOk (ApiResponse.json (Json.arr [])) = false ∧
    specListingOk (ApiResponse.json (Json.arr [])) = true ∧
    listingOk (ApiResponse.json (Json.obj [("models", Json.num 3)])) = true ∧
    specListingOk (ApiResponse.json (Json.obj [("models", Json.num 3)]))
      = false :=
  ⟨rfl, rfl, rfl, rfl⟩

/-- C7 amended: a listing response is recognized as a success iff it is
truthy (non-empty) and is either a list, or a mapping containing a
`models` or `data` key regardless of that value's type; the fallback
candidates are consumed in order stopping at the first success, the
batch variants accept the first candidate only when it is a truthy list,
and the `update-models.py` loop breaks at the first recognized response
with its extracted value. -/
theorem c7_discovery_amended (r cur : ApiResponse) (rs : List ApiResponse)
    (r0 : ApiResponse) (alts resps : List ApiResponse) :
    (listingOk r = true ↔ r.truthy = true ∧
      (r.isList = true ∨ (r.isDict = true ∧
        (hasKey r.objEntries "models" = true ∨
         hasKey r.objEntries "data" = true)))) ∧
    (∀ rr, rs.find? listingOk = some rr → loopFetch cur rs = rr) ∧
    ((r0.truthy && r0.isList) = true → fetchModelsResponse r0 alts = r0) ∧
    ((r0.truthy && r0.isList) = false →
      fetchModelsResponse r0 alts = loopFetch r0 alts) ∧
    (umLoop resps = (resps.find? listingOk).bind breakValue) := by
  refine ⟨?_, ?_, ?_, ?_, umLoop_eq_find resps⟩
  · simp [listingOk, Bool.and_eq_true, Bool.or_eq_true]
  · intro rr h
    exact loopFetch_first_success rs cur rr h
  · intro h
    unfold fetchModelsResponse
    rw [if_pos h]
  · intro h
    unfold fetchModelsResponse
    rw [if_neg (by simp [h])]

/-- A mapping response whose `models` value is not a list. -/
def dictNumModels : ApiResponse :=
  ApiResponse.json (Json.obj [("models", Json.num 3)])

theorem c7_discovery_amended_witness :
    loopFetch ApiResponse.noResp [emptyListResp, dictNumModels]
      = dictNumModels :=
  (c7_discovery_amended dictNumModels ApiResponse.noResp
    [emptyListResp, dictNumModels] ApiResponse.noResp [] []).2.1
    dictNumModels (by rfl)

/-- C8: when a listing body is a mapping, the records extracted are the
value of `models` if that key is present, else the value of `data` if
present, else the empty collection; and the response `{"data": xs}`
extracts exactly the records of the bare list `xs`. -/
theorem c8_mapping_extraction (kvs : Dict) (xs : List Json) :
    (hasKey kvs "models" = true →
      extractModels (ApiResponse.json (Json.obj kvs))
        = getD kvs "models" Json.null) ∧
    (hasKey kvs "models" = false → hasKey kvs "data" = true →
      extractModels (ApiResponse.json (Json.obj kvs))
        = getD kvs "data" Json.null) ∧
    (hasKey kvs "models" = false → hasKey kvs "data" = false →
      extractModels (ApiResponse.json (Json.obj kvs)) = Json.arr []) ∧
    (extractModels (ApiResponse.json (Json.obj [("data", Json.arr xs)]))
      = extractModels (ApiResponse.json (Json.arr xs))) := by
  refine ⟨?_, ?_, ?_, rfl⟩
  · intro hm
    unfold extractModels
    exact getD_irrel_of_hasKey kvs "models" _ Json.null hm
  · intro hm hd
    show getD kvs "models" (getD kvs "data" (Json.arr []))
      = getD kvs "data" Json.null
    rw [getD_of_hasKey_false kvs "models" _ hm]
    exact getD_irrel_of_hasKey kvs "data" _ Json.null hd
  · intro hm hd
    show getD kvs "models" (getD kvs "data" (Json.arr [])) = Json.arr []
    rw [getD_of_hasKey_false kvs "models" _ hm]
    exact getD_of_hasKey_false kvs "data" _ hd

theorem c8_mapping_extraction_witness :
    extractModels (ApiResponse.json (Json.obj
      [("models", Json.arr [Json.str "a"]), ("data", Json.arr [])]))
      = Json.arr [Json.str "a"] :=
  ((c8_mapping_extraction
      [("models", Json.arr [Json.str "a"]), ("data", Json.arr [])] []).1
    (by rfl)).trans rfl

end BulkUpdater
